import Mathlib

/-!
Verification of the pygrowthstandards LMS kernel, query resolver and growth-table
operations.

The definitions below are shallow embeddings of the Python source:
  - `calculate_z_score`      from src/utils/stats.py (the same formula is used by
                             src/utils/decimal_stats.py);
  - `calculate_value_for_z_score` is modelled from the spec (see its doc comment);
  - `fixValueForZScore`      from TableData._calculate_value_for_z_score in
                             src/calculator/table_data.py (identical to
                             Computer._compute_value_for_z_score in computer.py);
  - `computeZScore`          from Computer._compute_z_score in src/calculator/computer.py
                             (identical to TableData._calculate_z_score);
  - `getKeys` and friends    from src/functional/data.py;
  - `chooseTable`, `zscoreF` from src/functional/calculator.py;
  - `measurementAliasesGetName` from MeasurementAliases in src/utils/choices.py;
  - `GrowthTable`, `getLms`, `cutData` from src/data/load.py and src/functional/data.py.
Machine floats are embedded as real numbers; ages and table entries are embedded as
rationals where the source only performs field arithmetic and comparisons on them.
-/

namespace PyGrowthStandards

/-- Embeds Python `str.upper()` for the ASCII identifiers this code handles:
upper-case each character. -/
def strUpper (s : String) : String := ⟨s.data.map Char.toUpper⟩

/-- Embeds Python `str.lower()` for the ASCII identifiers this code handles:
lower-case each character. -/
def strLower (s : String) : String := ⟨s.data.map Char.toLower⟩

/-- Embeds Python `str.replace("-", "_")`: a single-character pattern makes the
replacement a character-wise map. -/
def dashToUnderscore (s : String) : String :=
  ⟨s.data.map (fun c => if c = '-' then '_' else c)⟩

/-- Embeds `WEEK` from src/utils/constants.py. -/
def WEEK : ℚ := 7

/-- Embeds `YEAR` from src/utils/constants.py. -/
def YEAR : ℚ := 365.25

/-- Embeds `calculate_z_score` from src/utils/stats.py: for `l = 0` the source
returns `(value / m - 1) / s`, otherwise `((value / m) ** l - 1) / (l * s)`.
The Python power on floats is embedded as real `rpow`. -/
noncomputable def calculate_z_score (value l m s : ℝ) : ℝ :=
  if l = 0 then (value / m - 1) / s
  else ((value / m) ^ l - 1) / (l * s)

/-- Modelled from the spec: the function `calculate_value_for_z_score` is imported
from `src.utils.stats` by src/calculator/computer.py and src/calculator/table_data.py
and exercised by tests/test_stats.py, but its definition is absent from src/utils/stats.py.
Per spec section 4.1, value-from-z is `M * (1 + L*S*z) ** (1/L)` for `L != 0` and
`M * exp(S*z)` for `L = 0`. -/
noncomputable def calculate_value_for_z_score (z l m s : ℝ) : ℝ :=
  if l = 0 then m * Real.exp (s * z)
  else m * (1 + l * s * z) ^ (1 / l)

/-- Embeds `TableData._calculate_value_for_z_score` from src/calculator/table_data.py
(and the identical `Computer._compute_value_for_z_score` from computer.py).  The
source recurses at the constants 3, 2, -2, -3, which all fall into the base branch,
so the one-level recursion is unrolled here. -/
noncomputable def fixValueForZScore (z l m s : ℝ) : ℝ :=
  if 3 < z then
    (let sd3 := calculate_value_for_z_score 3 l m s;
     let sd2 := calculate_value_for_z_score 2 l m s;
     sd3 + (sd3 - sd2) * (z - 3))
  else if z < -3 then
    (let sd3neg := calculate_value_for_z_score (-3) l m s;
     let sd2neg := calculate_value_for_z_score (-2) l m s;
     sd3neg + (sd2neg - sd3neg) * (z + 3))
  else calculate_value_for_z_score z l m s

/-- Embeds `Computer._compute_z_score` from src/calculator/computer.py (and the
identical `TableData._calculate_z_score` from table_data.py): compute the interior
z; return it if `-3 <= z <= 3`; otherwise apply `fix_extremes`, which returns z
unchanged when `l == 1` and otherwise corrects using the values at z = 3, 2
(resp. -3, -2). -/
noncomputable def computeZScore (y l m s : ℝ) : ℝ :=
  let z := calculate_z_score y l m s
  if -3 ≤ z ∧ z ≤ 3 then z
  else if l = 1 then z
  else if 3 < z then
    (let sd3 := fixValueForZScore 3 l m s;
     let sd2 := fixValueForZScore 2 l m s;
     3 + (y - sd3) / (sd3 - sd2))
  else if z < -3 then
    (let sd3neg := fixValueForZScore (-3) l m s;
     let sd2neg := fixValueForZScore (-2) l m s;
     -3 + (y - sd3neg) / (sd2neg - sd3neg))
  else z

/-- The z-score form stated by the spec for `L = 0`: `ln(Y/M)/S`. -/
noncomputable def spec_log_z_score (value m s : ℝ) : ℝ :=
  Real.log (value / m) / s

/-- Modelled from the spec: the dictionary `MEASUREMENT_ALIASES` is imported by
src/functional/data.py from `..utils.choices` but is absent from
src/utils/choices.py.  Spec section 4.4 gives its alias table exhaustively; the
canonical key itself is also accepted via the union in `normalized_measurement`. -/
def MEASUREMENT_ALIASES : List (String × List String) :=
  [("stature", ["lfa", "hfa", "lhfa", "sfa", "length", "height", "length_height",
                "l", "h", "s"]),
   ("weight", ["wfa", "w"]),
   ("head_circumference", ["hcfa", "hc"]),
   ("body_mass_index", ["bmi", "bfa"]),
   ("weight_stature_ratio", ["wfs", "wfl", "wfh", "weight_length", "weight_height",
                             "weight_stature", "weight_for_stature",
                             "weight_for_length", "weight_for_height"]),
   ("weight_velocity", []),
   ("length_velocity", []),
   ("head_circumference_velocity", [])]

/-- Embeds the nested `normalized_measurement` of `get_keys` in
src/functional/data.py: lower-case the input, replace dashes with underscores,
and return the first alias-table key whose alias set (together with the key
itself) contains the normalized string; an unknown measurement is an error
(`none` here). -/
def normalizedMeasurement (measurement : String) : Option String :=
  (MEASUREMENT_ALIASES.find? (fun p =>
    let normalized := dashToUnderscore (strLower measurement)
    normalized ∈ p.2 ∨ normalized = p.1)).map (·.1)

/-- Embeds `_keys_handle_age_days` from src/functional/data.py. -/
def keysHandleAgeDays (ageDays : ℚ) (measurementType : String) : Except String String :=
  if (measurementType = "head_circumference" ∨ measurementType = "weight_stature")
      ∧ 5 * YEAR < ageDays then
    .error ("No reference for " ++ measurementType ++ " after 5 years.")
  else if measurementType = "weight" ∧ 10 * YEAR < ageDays then
    .error ("No reference for " ++ measurementType ++ " after 10 years.")
  else if 5 * YEAR < ageDays then .ok "growth"
  else .ok "child_growth"

/-- Embeds `_keys_handle_gestational_age` from src/functional/data.py. -/
def keysHandleGestationalAge (gestationalAge : ℚ) (measurementType : String) :
    Except String String :=
  if measurementType = "weight_stature" ∧ 28 < gestationalAge then
    .error ("No reference for " ++ measurementType ++ " at birth or fetal age.")
  else if measurementType = "body_mass_index" ∧ gestationalAge < 28 then
    .error ("No reference for " ++ measurementType ++ " at birth or fetal age.")
  else if 28 < gestationalAge then .ok "newborn"
  else .ok "very_preterm_newborn"

/-- Embeds the sex normalization of `get_keys` in src/functional/data.py:
`sex.upper() if sex.upper() in ["M", "F"] else "F"`. -/
def normSexKeys (sex : String) : String :=
  if strUpper sex = "M" ∨ strUpper sex = "F" then strUpper sex else "F"

/-- Embeds `get_keys` from src/functional/data.py.  Python exceptions are
embedded as `Except.error` carrying the message.  The very-preterm override
condition is the source's
`(gestational_age is not None) and (gestational_age < 28) and (age_days < 64 * WEEK)`,
checked after `_keys_handle_age_days` has already run (so its errors fire first,
as in the source). -/
def getKeys (measurement sex : String) (ageDays gestationalAge : Option ℚ) :
    Except String (String × String × String × String) :=
  if ageDays = none ∧ gestationalAge = none then
    .error "Either age_days or gestational_age must be provided."
  else
    match normalizedMeasurement measurement with
    | none => .error ("Unknown measurement: " ++ measurement)
    | some measurementType =>
      let sexN := normSexKeys sex
      match ageDays with
      | some a =>
        match keysHandleAgeDays a measurementType with
        | .error e => .error e
        | .ok name =>
          if gestationalAge.any (fun g => decide (g < 28)) && decide (a < 64 * WEEK) then
            .ok ("very_preterm_growth", measurementType, sexN, "age")
          else
            .ok (name, measurementType, sexN, "age")
      | none =>
        match gestationalAge with
        | none => .error "Either age_days or gestational_age must be provided."
        | some g =>
          match keysHandleGestationalAge g measurementType with
          | .error e => .error e
          | .ok name => .ok (name, measurementType, sexN, "gestational_age")

/-- Embeds the local `measurement_aliases` dictionary and the nested
`canonical_measurement` of `_choose_table` in src/functional/calculator.py. -/
def canonicalMeasurementF (measurement : String) : Option String :=
  ([("length", ["height", "length", "height_length"]),
    ("weight", ["weight"]),
    ("head_circumference", ["head_circumference"]),
    ("body_mass_index", ["bmi", "body_mass_index"])].find?
      (fun p => measurement ∈ p.2)).map (·.1)

/-- Embeds `_choose_table` from src/functional/calculator.py: source selection by
age brackets (with the head-circumference and weight caps raising in place), the
length-to-height rename past two years, and the final filename assembly. -/
def chooseTable (measurement : String) (ageDays : ℚ) (sex : String) :
    Except String String :=
  let sexL := strLower sex
  match canonicalMeasurementF measurement with
  | none => .error ("Unknown measurement: " ++ measurement)
  | some key =>
    let source : Except String String :=
      if ageDays ≤ 2 * YEAR then .ok "who_growth_0_to_2"
      else if key = "head_circumference" ∧ 5 * YEAR < ageDays then
        .error "No reference for head circumference after 5 years."
      else if ageDays ≤ 5 * YEAR then .ok "who_growth_2_to_5"
      else if ageDays ≤ 10 * YEAR then .ok "who_growth_5_to_10"
      else if key = "weight" ∧ 10 * YEAR < ageDays then
        .error "No reference for weight after 10 years."
      else if ageDays ≤ 19 * YEAR then .ok "who_growth_10_to_19"
      else .error "Age exceeds the maximum reference age of 19 years."
    match source with
    | .error e => .error e
    | .ok src =>
      let key2 := if 2 * YEAR < ageDays ∧ key = "length" then "height" else key
      .ok (src ++ "_" ++ key2 ++ "_for_age_" ++ sexL ++ ".json")

/-- Embeds the sex normalization of `_zscore` in src/functional/calculator.py:
`if sex not in ["M", "F"]: sex = "F"`. -/
def normSexZ (sex : String) : String :=
  if sex = "M" ∨ sex = "F" then sex else "F"

/-- Embeds `_zscore` from src/functional/calculator.py.  The file-backed
`_get_table_data` lookup is abstracted as the `tableData` oracle from filename to
LMS triple (`none` embeds its failure). -/
noncomputable def zscoreF (tableData : String → Option (ℝ × ℝ × ℝ))
    (measurement : String) (value : ℝ) (age : ℤ) (sex : String) :
    Except String ℝ :=
  let sexN := normSexZ sex
  match chooseTable measurement (age : ℚ) sexN with
  | .error e => .error e
  | .ok t =>
    match tableData t with
    | none => .error "No data available"
    | some (l, m, s) => .ok (calculate_z_score value l m s)

/-- Modelled from the spec: the public `zscore` operation taking
`age_days?`/`gestational_age?` (spec sections 4.4 and 6, exercised by
tests/functional/test_functional.py and src/functional/main.py) is absent from
src/.  Per section 4.4 it resolves lookup keys via `get_keys` (embedded above
from src/functional/data.py) and surfaces any error verbatim; the catalog fetch
and LMS extraction are abstracted as an oracle. -/
noncomputable def zscoreResolver
    (oracle : (String × String × String × String) → ℚ → Option (ℝ × ℝ × ℝ))
    (measurement : String) (value : ℝ) (sex : String)
    (ageDays gestationalAge : Option ℚ) : Except String ℝ :=
  match getKeys measurement sex ageDays gestationalAge with
  | .error e => .error e
  | .ok keys =>
    let x := ageDays.getD (gestationalAge.getD 0)
    match oracle keys x with
    | none => .error "OutOfRange"
    | some (l, m, s) => .ok (computeZScore value l m s)

instance {e a : Type} [DecidableEq e] [DecidableEq a] : DecidableEq (Except e a) :=
  fun x y =>
  match x, y with
  | .error u, .error v => decidable_of_iff (u = v) (by simp)
  | .ok u, .ok v => decidable_of_iff (u = v) (by simp)
  | .error _, .ok _ => isFalse (fun h => by cases h)
  | .ok _, .error _ => isFalse (fun h => by cases h)

/-- Embeds the `MeasurementAliases` enum of src/utils/choices.py: each member
name paired with its alias tuple, in source order. -/
def measurementAliasesTable : List (String × List String) :=
  [("STATURE", ["stature", "lfa", "hfa", "lhfa", "length", "height", "length_height"]),
   ("WEIGHT", ["wfa", "wfl", "wfh", "weight", "weight_height", "weight_length",
               "weight_stature"]),
   ("HEAD_CIRCUMFERENCE", ["hcfa", "hc", "head_circumference"]),
   ("BODY_MASS_INDEX", ["bfa", "bmi", "body_mass_index"]),
   ("WEIGHT_VELOCITY", ["weight_velocity"]),
   ("LENGTH_VELOCITY", ["length_velocity"]),
   ("HEAD_CIRCUMFERENCE_VELOCITY", ["head_circumference_velocity"])]

/-- Embeds `MeasurementAliases.get_name` of src/utils/choices.py: return the
name of the first member whose alias tuple contains the value; raising for an
unknown alias is embedded as `none`. -/
def measurementAliasesGetName (value : String) : Option String :=
  (measurementAliasesTable.find? (fun p => value ∈ p.2)).map (·.1)

/-- Embeds the `GrowthTable` dataclass of src/data/load.py: five parallel data
arrays plus the metadata fields. -/
structure GrowthTable where
  source : String
  name : String
  age_group : Option String
  measurement_type : String
  sex : String
  x_var_type : String
  x_var_unit : String
  x : List ℚ
  L : List ℚ
  M : List ℚ
  S : List ℚ
  is_derived : List Bool

/-- Embeds `get_lms` from src/functional/data.py: when the queried x occurs in
`table.x`, return the L, M, S entries at its first index, with no interpolation.
In the source the non-exact branch calls `stats.interpolate_lms` with an
argument list that does not match that function's signature (the implementation
with this signature is `functional_interpolate_lms`); the branch is embedded as
`none` and no claim depends on it. -/
def getLms (t : GrowthTable) (q : ℚ) : Option (ℚ × ℚ × ℚ) :=
  if q ∈ t.x then
    some (t.L.getD (t.x.indexOf q) 0, t.M.getD (t.x.indexOf q) 0,
          t.S.getD (t.x.indexOf q) 0)
  else none

/-- Embeds numpy boolean-mask indexing `arr[mask]` as used by
`GrowthTable.cut_data`: keep the entries whose mask position is true. -/
def maskFilter {α : Type} : List Bool → List α → List α
  | true :: bs, y :: ys => y :: maskFilter bs ys
  | false :: bs, _ :: ys => maskFilter bs ys
  | _, _ => []

/-- Embeds the mask `(self.x >= lower_limit) & (self.x <= upper_limit)` of
`GrowthTable.cut_data` in src/data/load.py. -/
def cutMask (lowerLimit upperLimit : ℚ) (xs : List ℚ) : List Bool :=
  xs.map (fun v => decide (lowerLimit ≤ v) && decide (v ≤ upperLimit))

/-- Embeds `GrowthTable.cut_data` from src/data/load.py: filter x, L, M, S and
is_derived by the same mask computed from x; all other fields are untouched. -/
def cutData (t : GrowthTable) (lowerLimit upperLimit : ℚ) : GrowthTable :=
  let mask := cutMask lowerLimit upperLimit t.x
  { t with
    x := maskFilter mask t.x
    L := maskFilter mask t.L
    M := maskFilter mask t.M
    S := maskFilter mask t.S
    is_derived := maskFilter mask t.is_derived }

/-- A concrete growth table used to evaluate the exact-hit lookup. -/
def tableA : GrowthTable :=
  { source := "who", name := "child_growth", age_group := none,
    measurement_type := "stature", sex := "F", x_var_type := "age",
    x_var_unit := "day", x := [7, 14, 21], L := [1, 2, 3],
    M := [4, 5, 6], S := [9, 10, 11], is_derived := [false, false, false] }

/-- A concrete growth table used to evaluate `cut_data`. -/
def tableB : GrowthTable :=
  { source := "who", name := "growth", age_group := some "5-10",
    measurement_type := "weight", sex := "M", x_var_type := "age",
    x_var_unit := "day", x := [1, 2, 3], L := [4, 5, 6],
    M := [7, 8, 9], S := [10, 11, 12], is_derived := [true, false, true] }

/-! Theorems.  Helper lemmas come first; each claim is settled by a single
theorem named after it. -/

/-- At arguments 3, 2, -2 and -3 the extreme-value wrapper reduces to the plain
value-from-z function. -/
theorem fixValueForZScore_interior {z : ℝ} (h1 : ¬ 3 < z) (h2 : ¬ z < -3)
    (l m s : ℝ) : fixValueForZScore z l m s = calculate_value_for_z_score z l m s := by
  unfold fixValueForZScore
  rw [if_neg h1, if_neg h2]

/-- C1: at the failing input Y = 110, L = 0, M = 100, S = 1/10 the source kernel
returns (Y/M - 1)/S = 1, while the z-score form claimed by the spec, ln(Y/M)/S,
does not equal 1 there (since exp(1/10) > 11/10); so the L = 0 branch of the code
is the linearized form, not the logarithmic one. -/
theorem c1_l0_branch_is_linear_not_log :
    calculate_z_score 110 0 100 (1/10) = 1 ∧
    spec_log_z_score 110 100 (1/10) ≠ 1 := by
  constructor
  · unfold calculate_z_score
    norm_num
  · unfold spec_log_z_score
    have hlt : Real.log (110 / 100) < 1 / 10 := by
      rw [Real.log_lt_iff_lt_exp (by norm_num)]
      have := Real.add_one_lt_exp (x := 1/10) (by norm_num)
      linarith
    intro h
    have : Real.log (110 / 100) = 1 / 10 := by
      field_simp at h
      linarith
    linarith

/-- C2: for every input and LMS triple, the z-score computation first computes the
interior z; when L is not 1 and z > 3 it returns 3 + (Y - SD3)/(SD3 - SD2) with
SD3 = v(3) and SD2 = v(2); when L is not 1 and z < -3 it returns the symmetric
-3 + (Y - SD3n)/(SD2n - SD3n); and when L = 1 the interior z is returned
unchanged, with no correction even when its absolute value exceeds 3. -/
theorem c2_extreme_tail_correction (y l m s : ℝ) :
    (l ≠ 1 → 3 < calculate_z_score y l m s →
      computeZScore y l m s =
        3 + (y - calculate_value_for_z_score 3 l m s) /
            (calculate_value_for_z_score 3 l m s - calculate_value_for_z_score 2 l m s)) ∧
    (l ≠ 1 → calculate_z_score y l m s < -3 →
      computeZScore y l m s =
        -3 + (y - calculate_value_for_z_score (-3) l m s) /
             (calculate_value_for_z_score (-2) l m s - calculate_value_for_z_score (-3) l m s)) ∧
    (l = 1 → computeZScore y l m s = calculate_z_score y l m s) := by
  refine ⟨?_, ?_, ?_⟩
  · intro hl hz
    simp only [computeZScore]
    rw [if_neg (by rintro ⟨_, h2⟩; linarith), if_neg hl, if_pos hz,
        fixValueForZScore_interior (by norm_num) (by norm_num),
        fixValueForZScore_interior (by norm_num) (by norm_num)]
  · intro hl hz
    simp only [computeZScore]
    rw [if_neg (by rintro ⟨h1, _⟩; linarith), if_neg hl,
        if_neg (by linarith), if_pos hz,
        fixValueForZScore_interior (by norm_num) (by norm_num),
        fixValueForZScore_interior (by norm_num) (by norm_num)]
  · intro hl
    simp only [computeZScore]
    split_ifs with h1 <;> rfl

/-- C2 witness: at Y = 3, L = 2, M = 1, S = 1 the interior z is 4 > 3 and the
correction formula is applied. -/
theorem c2_extreme_tail_correction_witness :
    (2:ℝ) ≠ 1 ∧ 3 < calculate_z_score 3 2 1 1 ∧
    computeZScore 3 2 1 1 =
      3 + (3 - calculate_value_for_z_score 3 2 1 1) /
          (calculate_value_for_z_score 3 2 1 1 - calculate_value_for_z_score 2 2 1 1) := by
  have hz : calculate_z_score 3 2 1 1 = 4 := by
    unfold calculate_z_score
    rw [if_neg two_ne_zero, show ((3:ℝ)/1) = 3 by norm_num,
        show (2:ℝ) = ((2:ℕ):ℝ) by norm_num, Real.rpow_natCast]
    norm_num
  exact ⟨by norm_num, by rw [hz]; norm_num,
    (c2_extreme_tail_correction 3 2 1 1).1 (by norm_num) (by rw [hz]; norm_num)⟩

/-- C3: for L not 0, M > 0, S > 0 and Y > 0 with interior z-score of absolute
value at most 3, applying the value-from-z function to the computed z-score
returns Y to within 1e-9 relative error (in fact exactly). -/
theorem c3_value_inverts_z_score (l m s y : ℝ) (hl : l ≠ 0) (hm : 0 < m)
    (hs : 0 < s) (hy : 0 < y) (hz : |calculate_z_score y l m s| ≤ 3) :
    |fixValueForZScore (calculate_z_score y l m s) l m s - y| ≤ 1e-9 * y := by
  have habs := abs_le.mp hz
  rw [fixValueForZScore_interior (by linarith [habs.2]) (by linarith [habs.1])]
  have hls : l * s ≠ 0 := mul_ne_zero hl (ne_of_gt hs)
  have h1 : 1 + l * s * calculate_z_score y l m s = (y / m) ^ l := by
    unfold calculate_z_score
    rw [if_neg hl]
    field_simp
  have key : calculate_value_for_z_score (calculate_z_score y l m s) l m s = y := by
    unfold calculate_value_for_z_score
    rw [if_neg hl, h1, ← Real.rpow_mul (le_of_lt (div_pos hy hm)),
        mul_one_div_cancel hl, Real.rpow_one]
    field_simp
  rw [key, sub_self, abs_zero]
  positivity

/-- C3 witness: at L = 1, M = 1, S = 1, Y = 2 the interior z is 1 and the
round-trip through the value-from-z function recovers Y = 2. -/
theorem c3_value_inverts_z_score_witness :
    (1:ℝ) ≠ 0 ∧ (0:ℝ) < 1 ∧ (0:ℝ) < 2 ∧ |calculate_z_score 2 1 1 1| ≤ 3 ∧
    |fixValueForZScore (calculate_z_score 2 1 1 1) 1 1 1 - 2| ≤ 1e-9 * 2 := by
  have hz : calculate_z_score 2 1 1 1 = 1 := by
    unfold calculate_z_score
    rw [if_neg one_ne_zero, show ((2:ℝ)/1) = 2 by norm_num, Real.rpow_one]
    norm_num
  refine ⟨one_ne_zero, one_pos, two_pos, by rw [hz]; norm_num, ?_⟩
  exact c3_value_inverts_z_score 1 1 1 2 one_ne_zero one_pos one_pos two_pos
    (by rw [hz]; norm_num)

theorem normalizedMeasurement_weight :
    normalizedMeasurement "weight" = some "weight" := by decide

theorem keysHandleAgeDays_weight_100 :
    keysHandleAgeDays 100 "weight" = .ok "child_growth" := by
  norm_num [keysHandleAgeDays, YEAR]

/-- C4: the very-preterm override in `get_keys` compares the gestational age
(in days) against the bare number 28, not against 28 weeks = 196 days.  At
gestational age 100 days (well below 196) and chronological age 100 days (below
64 weeks = 448) the resolver returns child_growth, not very_preterm_growth as
the claim states; only a gestational age below 28 (days) triggers the override. -/
theorem c4_very_preterm_override_uses_28_days :
    getKeys "weight" "M" (some 100) (some 100) =
      .ok ("child_growth", "weight", "M", "age") ∧
    getKeys "weight" "M" (some 100) (some 27) =
      .ok ("very_preterm_growth", "weight", "M", "age") ∧
    (100 : ℚ) < 28 * 7 ∧ (100 : ℚ) < 64 * 7 := by
  refine ⟨?_, ?_, by norm_num, by norm_num⟩
  · simp only [getKeys, normalizedMeasurement_weight, keysHandleAgeDays_weight_100]
    norm_num [Option.any, WEEK]
    decide
  · simp only [getKeys, normalizedMeasurement_weight, keysHandleAgeDays_weight_100]
    norm_num [Option.any, WEEK]
    decide

/-- C6: with neither a chronological nor a gestational age supplied, `get_keys`
fails with the missing-age error for every measurement and sex, and the public
zscore operation (spec-modelled, resolving keys through `get_keys`) surfaces
that error instead of returning a value. -/
theorem c6_missing_age_error (measurement sex : String)
    (oracle : (String × String × String × String) → ℚ → Option (ℝ × ℝ × ℝ))
    (value : ℝ) :
    getKeys measurement sex none none =
      .error "Either age_days or gestational_age must be provided." ∧
    zscoreResolver oracle measurement value sex none none =
      .error "Either age_days or gestational_age must be provided." := by
  have h : getKeys measurement sex none none =
      .error "Either age_days or gestational_age must be provided." := by
    unfold getKeys
    rw [if_pos ⟨rfl, rfl⟩]
  exact ⟨h, by simp only [zscoreResolver, h]⟩

/-- C9: every query with sex U gives exactly the same output as the same query
with sex F: both `get_keys` (src/functional/data.py) and `_zscore`
(src/functional/calculator.py, with its table-file contents abstracted as an
oracle) normalize U to F before any lookup. -/
theorem c9_sex_u_equals_sex_f :
    (∀ (measurement : String) (ageDays gestationalAge : Option ℚ),
      getKeys measurement "U" ageDays gestationalAge =
        getKeys measurement "F" ageDays gestationalAge) ∧
    (∀ (tableData : String → Option (ℝ × ℝ × ℝ)) (measurement : String)
        (value : ℝ) (age : ℤ),
      zscoreF tableData measurement value age "U" =
        zscoreF tableData measurement value age "F") := by
  have hk : normSexKeys "U" = normSexKeys "F" := by decide
  have hz : normSexZ "U" = normSexZ "F" := by decide
  constructor
  · intro measurement ageDays gestationalAge
    simp only [getKeys, hk]
  · intro tableData measurement value age
    simp only [zscoreF, hz]

/-- Reduction of `get_keys` on the chronological-age path with no gestational
age: the result is determined by `_keys_handle_age_days`. -/
theorem getKeys_age_only (measurement sex : String) (mt : String) (a : ℚ)
    (hmt : normalizedMeasurement measurement = some mt) :
    getKeys measurement sex (some a) none =
      match keysHandleAgeDays a mt with
      | .error e => .error e
      | .ok name => .ok (name, mt, normSexKeys sex, "age") := by
  unfold getKeys
  rw [if_neg (fun h => Option.noConfusion h.1), hmt]
  cases h : keysHandleAgeDays a mt with
  | error e => simp [h]
  | ok name => simp [h, Option.any]

theorem normalizedMeasurement_hc :
    normalizedMeasurement "head_circumference" = some "head_circumference" := by decide

theorem keysHandleAgeDays_over_five (a : ℚ) (mt : String)
    (hmt : mt = "head_circumference" ∨ mt = "weight_stature")
    (ha : 5 * YEAR < a) :
    keysHandleAgeDays a mt =
      .error ("No reference for " ++ mt ++ " after 5 years.") := by
  unfold keysHandleAgeDays
  rw [if_pos ⟨hmt, ha⟩]

/-- C5: at chronological age exactly 5 * 365.25 days a head-circumference (or
weight-for-stature, whose token in the functional layer is weight_stature)
query resolves to the child_growth table, while every strictly larger age fails
with the no-reference-after-5-years error. -/
theorem c5_five_year_boundary :
    (getKeys "head_circumference" "F" (some (5 * YEAR)) none =
      .ok ("child_growth", "head_circumference", "F", "age")) ∧
    (∀ a : ℚ, 5 * YEAR < a →
      getKeys "head_circumference" "F" (some a) none =
        .error "No reference for head_circumference after 5 years.") ∧
    (keysHandleAgeDays (5 * YEAR) "weight_stature" = .ok "child_growth") ∧
    (∀ a : ℚ, 5 * YEAR < a →
      keysHandleAgeDays a "weight_stature" =
        .error "No reference for weight_stature after 5 years.") := by
  refine ⟨?_, ?_, ?_, ?_⟩
  · rw [getKeys_age_only _ _ "head_circumference" _ normalizedMeasurement_hc]
    have h : keysHandleAgeDays (5 * YEAR) "head_circumference" = .ok "child_growth" := by
      norm_num [keysHandleAgeDays, YEAR]
    rw [h]
    decide
  · intro a ha
    rw [getKeys_age_only _ _ "head_circumference" _ normalizedMeasurement_hc,
        keysHandleAgeDays_over_five a _ (Or.inl rfl) ha]
    rfl
  · norm_num [keysHandleAgeDays, YEAR]
  · intro a ha
    exact keysHandleAgeDays_over_five a _ (Or.inr rfl) ha

/-- C5 witness: one day past the boundary, at age 5 * 365.25 + 1, the
head-circumference query errors, while the boundary itself was accepted. -/
theorem c5_five_year_boundary_witness :
    5 * YEAR < 5 * YEAR + 1 ∧
    getKeys "head_circumference" "F" (some (5 * YEAR + 1)) none =
      .error "No reference for head_circumference after 5 years." := by
  constructor
  · linarith
  · exact c5_five_year_boundary.2.1 (5 * YEAR + 1) (by linarith)

/-- C7 counterexample: the alias table shipped in src/utils/choices.py maps
wfl to WEIGHT (plain weight), not to weight_stature_ratio, and does not know
wfs at all. -/
theorem c7_aliases_counterexample :
    measurementAliasesGetName "wfl" = some "WEIGHT" ∧
    measurementAliasesGetName "wfl" ≠ some "weight_stature_ratio" ∧
    measurementAliasesGetName "wfs" = none := by decide

/-- C7 (amended): in `MeasurementAliases`, the aliases wfl, wfh, weight_length,
weight_height and weight_stature map to the canonical measurement WEIGHT
(alongside wfa and weight); wfs, weight_for_stature, weight_for_length and
weight_for_height are not recognized; and no alias resolves to a
weight_stature_ratio measurement type. -/
theorem c7_weight_stature_aliases_map_to_weight :
    (measurementAliasesGetName "wfl" = some "WEIGHT" ∧
     measurementAliasesGetName "wfh" = some "WEIGHT" ∧
     measurementAliasesGetName "weight_length" = some "WEIGHT" ∧
     measurementAliasesGetName "weight_height" = some "WEIGHT" ∧
     measurementAliasesGetName "weight_stature" = some "WEIGHT" ∧
     measurementAliasesGetName "wfa" = some "WEIGHT" ∧
     measurementAliasesGetName "weight" = some "WEIGHT" ∧
     measurementAliasesGetName "wfs" = none ∧
     measurementAliasesGetName "weight_for_stature" = none ∧
     measurementAliasesGetName "weight_for_length" = none ∧
     measurementAliasesGetName "weight_for_height" = none) ∧
    (∀ v r, measurementAliasesGetName v = some r →
      r ≠ "weight_stature_ratio" ∧ r ≠ "WEIGHT_STATURE_RATIO") := by
  refine ⟨by decide, ?_⟩
  intro v r h
  obtain ⟨p, hp, hr⟩ := Option.map_eq_some'.mp h
  have hmem : p ∈ measurementAliasesTable := List.mem_of_find?_eq_some hp
  subst hr
  simp only [measurementAliasesTable, List.mem_cons, List.not_mem_nil, or_false] at hmem
  rcases hmem with rfl | rfl | rfl | rfl | rfl | rfl | rfl <;> exact ⟨by decide, by decide⟩

/-- C7 witness for the amended universal part: wfl resolves to WEIGHT, which is
not a weight-stature-ratio type. -/
theorem c7_weight_stature_aliases_map_to_weight_witness :
    measurementAliasesGetName "wfl" = some "WEIGHT" ∧
    ("WEIGHT" ≠ "weight_stature_ratio" ∧ "WEIGHT" ≠ "WEIGHT_STATURE_RATIO") :=
  ⟨by decide,
   c7_weight_stature_aliases_map_to_weight.2 "wfl" "WEIGHT" (by decide)⟩

/-- C8: on a table whose x axis is strictly increasing, querying the LMS at an x
equal to the stored sample at position i returns that sample's L, M, S entries
unchanged, with no interpolation. -/
theorem c8_exact_sample_no_interpolation (t : GrowthTable) (i : ℕ)
    (hi : i < t.x.length) (hsorted : t.x.Sorted (· < ·)) :
    getLms t (t.x.get ⟨i, hi⟩) =
      some (t.L.getD i 0, t.M.getD i 0, t.S.getD i 0) := by
  have hmem : t.x.get ⟨i, hi⟩ ∈ t.x := t.x.get_mem i hi
  have hidx : t.x.indexOf (t.x.get ⟨i, hi⟩) = i := by
    have hnd : t.x.Nodup := hsorted.nodup
    have hlt : t.x.indexOf (t.x.get ⟨i, hi⟩) < t.x.length :=
      List.indexOf_lt_length.mpr hmem
    have hget := List.indexOf_get (a := t.x.get ⟨i, hi⟩) (l := t.x) hlt
    exact congrArg Fin.val ((hnd.get_inj_iff).mp hget)
  unfold getLms
  rw [if_pos hmem, hidx]

/-- C8 witness: on the concrete table with x = [7, 14, 21], querying x = 14
returns the stored middle sample (2, 5, 10). -/
theorem c8_exact_sample_no_interpolation_witness :
    (1 < tableA.x.length) ∧ tableA.x.Sorted (· < ·) ∧
    getLms tableA 14 = some (2, 5, 10) := by
  refine ⟨by decide, by decide, ?_⟩
  exact c8_exact_sample_no_interpolation tableA 1 (by decide) (by decide)

theorem maskFilter_map_self (p : ℚ → Bool) (xs : List ℚ) :
    maskFilter (xs.map p) xs = xs.filter p := by
  induction xs with
  | nil => rfl
  | cons a as ih =>
    cases hpa : p a <;> simp [maskFilter, List.filter_cons, hpa, ih]

theorem maskFilter_zip {α : Type} (p : ℚ → Bool) (xs : List ℚ) :
    ∀ (ys : List α), ys.length = xs.length →
      (maskFilter (xs.map p) xs).zip (maskFilter (xs.map p) ys) =
        (xs.zip ys).filter (fun q => p q.1) := by
  induction xs with
  | nil =>
    intro ys h
    cases ys with
    | nil => rfl
    | cons y ys => simp at h
  | cons x xs ih =>
    intro ys h
    cases ys with
    | nil => simp at h
    | cons y ys =>
      have h' : ys.length = xs.length := by simpa using h
      cases hpx : p x <;>
        simp [maskFilter, List.filter_cons, hpx, ih ys h']

theorem maskFilter_length {α : Type} (p : ℚ → Bool) (xs : List ℚ) :
    ∀ (ys : List α), ys.length = xs.length →
      (maskFilter (xs.map p) ys).length = (xs.filter p).length := by
  induction xs with
  | nil =>
    intro ys h
    cases ys with
    | nil => rfl
    | cons y ys => simp at h
  | cons x xs ih =>
    intro ys h
    cases ys with
    | nil => simp at h
    | cons y ys =>
      have h' : ys.length = xs.length := by simpa using h
      cases hpx : p x <;>
        simp [maskFilter, List.filter_cons, hpx, ih ys h']

/-- C10: when the five data arrays are parallel, `cut_data` filters x, L, M, S
and is_derived by the same mask, keeping exactly the entries whose x lies in
[lower_limit, upper_limit] (boundaries included), so the arrays stay aligned and
of equal length; all metadata fields are unchanged. -/
theorem c10_cut_data_parallel_filter (t : GrowthTable) (lo hi : ℚ)
    (hL : t.L.length = t.x.length) (hM : t.M.length = t.x.length)
    (hS : t.S.length = t.x.length) (hD : t.is_derived.length = t.x.length) :
    ((cutData t lo hi).x = t.x.filter (fun v => decide (lo ≤ v) && decide (v ≤ hi))) ∧
    ((cutData t lo hi).x.zip (cutData t lo hi).L =
      (t.x.zip t.L).filter (fun q => decide (lo ≤ q.1) && decide (q.1 ≤ hi))) ∧
    ((cutData t lo hi).x.zip (cutData t lo hi).M =
      (t.x.zip t.M).filter (fun q => decide (lo ≤ q.1) && decide (q.1 ≤ hi))) ∧
    ((cutData t lo hi).x.zip (cutData t lo hi).S =
      (t.x.zip t.S).filter (fun q => decide (lo ≤ q.1) && decide (q.1 ≤ hi))) ∧
    ((cutData t lo hi).x.zip (cutData t lo hi).is_derived =
      (t.x.zip t.is_derived).filter (fun q => decide (lo ≤ q.1) && decide (q.1 ≤ hi))) ∧
    ((cutData t lo hi).L.length = (cutData t lo hi).x.length ∧
     (cutData t lo hi).M.length = (cutData t lo hi).x.length ∧
     (cutData t lo hi).S.length = (cutData t lo hi).x.length ∧
     (cutData t lo hi).is_derived.length = (cutData t lo hi).x.length) ∧
    ((cutData t lo hi).source = t.source ∧ (cutData t lo hi).name = t.name ∧
     (cutData t lo hi).age_group = t.age_group ∧
     (cutData t lo hi).measurement_type = t.measurement_type ∧
     (cutData t lo hi).sex = t.sex ∧
     (cutData t lo hi).x_var_type = t.x_var_type ∧
     (cutData t lo hi).x_var_unit = t.x_var_unit) := by
  have hx : (cutData t lo hi).x =
      t.x.filter (fun v => decide (lo ≤ v) && decide (v ≤ hi)) :=
    maskFilter_map_self _ t.x
  refine ⟨hx, ?_, ?_, ?_, ?_, ⟨?_, ?_, ?_, ?_⟩, rfl, rfl, rfl, rfl, rfl, rfl, rfl⟩
  · exact maskFilter_zip _ t.x t.L hL
  · exact maskFilter_zip _ t.x t.M hM
  · exact maskFilter_zip _ t.x t.S hS
  · exact maskFilter_zip _ t.x t.is_derived hD
  · rw [hx]; exact maskFilter_length _ t.x t.L hL
  · rw [hx]; exact maskFilter_length _ t.x t.M hM
  · rw [hx]; exact maskFilter_length _ t.x t.S hS
  · rw [hx]; exact maskFilter_length _ t.x t.is_derived hD

/-- C10 witness: cutting the concrete table to [2, 3] keeps the last two
positions of every array and leaves the metadata unchanged. -/
theorem c10_cut_data_parallel_filter_witness :
    tableB.L.length = tableB.x.length ∧
    tableB.is_derived.length = tableB.x.length ∧
    (cutData tableB 2 3).x = [2, 3] ∧
    (cutData tableB 2 3).L.length = (cutData tableB 2 3).x.length ∧
    (cutData tableB 2 3).sex = tableB.sex := by
  have h := c10_cut_data_parallel_filter tableB 2 3
    (by decide) (by decide) (by decide) (by decide)
  refine ⟨by decide, by decide, ?_, h.2.2.2.2.2.1.1, h.2.2.2.2.2.2.2.2.2.2.1⟩
  rw [h.1]
  decide

end PyGrowthStandards
